import Mathlib

/-!
Shallow embedding of the SecNex certmanager core (Go) in Lean 4, together
with theorems settling the frozen specification claims.

The embedding covers:
* the MinIO-backed blob store (`store` package: `Save`, `Read`,
  `SavePrivateKey`, `SaveCertificate`, `ReadPrivateKey`);
* the relational account directory (gorm `accounts` table with the
  `BeforeCreate` email-validation hook and the unique-email constraint);
* `account.NewAccount` / `Account.CreatePrivateKey`
  (`common/account`);
* `certificate.NewCertificate` / `NewCertificateWithConfig` /
  `RequestNewCertificate` / `Certificate.Save`, the challenge setup
  helpers and `ValidateDNSProviderConfig` (`common/certificate`);
* the migration list of `database.NewConnection`.

External collaborators (lego ACME client, MinIO transport, x509/pem
codecs, govalidator) are modelled as explicit environment records whose
fields give the outcome of each collaborator call; the world state
(relational rows plus blob map) is threaded explicitly, and every store
or client call leaves an event in a trace so that ordering and
write-count claims can be stated.
-/

namespace CertManager

/-- Raw bytes, as a list of byte values. -/
abbrev Bytes := List Nat

/-- One observable collaborator call made by the core. -/
inductive Event where
  | dbFindAccount (email : String)
  | dbCreateAccount (email : String)
  | getBlob (key : String)
  | putBlob (key : String) (data : Bytes)
  | setHTTP01Provider
  | setDNS01Provider
  | obtain (domains : List String)
  deriving DecidableEq, Repr

/-- Row of the gorm `accounts` table.  `deleted` models a set
`DeletedAt` (gorm soft delete): such a row is invisible to `First`
queries but still occupies the unique email index. -/
structure AccountRecord where
  id : String
  email : String
  deleted : Bool
  deriving DecidableEq, Repr

/-- Combined durable state: the relational store (`accounts` rows) and
the MinIO bucket (key-value blobs, newest binding first). -/
structure World where
  db : List AccountRecord
  blobs : List (String × Bytes)
  deriving DecidableEq, Repr

/-- Blob lookup: first binding for the key (MinIO `GetObject`). -/
def World.readBlob (w : World) (key : String) : Option Bytes :=
  (w.blobs.find? (fun p => p.1 == key)).map (fun p => p.2)

/-- Blob write (MinIO `PutObject`): the new binding shadows older ones. -/
def World.putBlob (w : World) (key : String) (data : Bytes) : World :=
  { w with blobs := (key, data) :: w.blobs }

/-- True for events that write the relational store. -/
def Event.isDbWrite : Event → Bool
  | .dbCreateAccount _ => true
  | _ => false

/-- True for events that write the blob store. -/
def Event.isBlobWrite : Event → Bool
  | .putBlob _ _ => true
  | _ => false

/-- True for events that write either store. -/
def Event.isWrite (e : Event) : Bool :=
  e.isDbWrite || e.isBlobWrite

end CertManager

namespace CertManager

/-! ### Certificate issuance (`common/certificate/certificate.go`) -/

/-- Mirror of `CertificateConfig`; `ChallengeType` is a Go string type
(`"http"` / `"dns"` constants), so it is kept as a string here. -/
structure CertificateConfig where
  challengeType : String
  dnsProvider : String
  deriving DecidableEq, Repr

/-- The slice of the lego `certificate.Resource` the core uses:
`Certificate.Save` persists exactly the `Certificate` field (the raw
signed chain bytes). -/
structure CertResource where
  certificate : Bytes
  deriving DecidableEq, Repr

/-- In-memory `account.Account` as far as the certificate path reads it
(only `ID` is consulted, for `AccountID`). -/
structure GoAccount where
  id : String
  email : String
  deriving DecidableEq, Repr

/-- In-memory `certificate.Certificate` value (embedded
`models.Certificate` plus the obtained resource and the config). -/
structure GoCertificate where
  id : String
  accountId : String
  domains : List String
  cert : Option CertResource
  config : CertificateConfig
  deriving DecidableEq, Repr

/-- Environment for one issuance attempt: outcomes of the lego client
calls and of the blob-store `PutObject`. `none` means the call
succeeds, `some e` that it fails with message `e`. -/
structure CertEnv where
  setHTTP01Fault : Option String
  manualProviderFault : Option String
  setDNS01Fault : Option String
  obtainResult : Except String CertResource
  putFault : Option String
  deriving Repr

/-- `setupHTTPChallenge`: installs the HTTP-01 provider server on the
lego client; the outcome is the client call result. -/
def setupHTTPChallenge (env : CertEnv) : Option String × List Event :=
  (env.setHTTP01Fault, [Event.setHTTP01Provider])

/-- `setupDNSChallenge`: builds the manual DNS-01 provider and installs
it; note that the function never reads `Config.DNSProvider`. -/
def setupDNSChallenge (env : CertEnv) : Option String × List Event :=
  match env.manualProviderFault with
  | some e => (some ("failed to create manual DNS provider: " ++ e), [])
  | none => (env.setDNS01Fault, [Event.setDNS01Provider])

/-- `Certificate.RequestNewCertificate`: dispatch on the challenge type,
then call `Obtain` for the full domain set; on success record the
returned resource on the certificate. -/
def RequestNewCertificate (env : CertEnv) (c : GoCertificate) :
    Except String GoCertificate × List Event :=
  let step : Except String Unit × List Event :=
    if c.config.challengeType = "http" then
      match setupHTTPChallenge env with
      | (some e, tr) => (Except.error ("failed to setup HTTP challenge: " ++ e), tr)
      | (none, tr) => (Except.ok (), tr)
    else if c.config.challengeType = "dns" then
      match setupDNSChallenge env with
      | (some e, tr) => (Except.error ("failed to setup DNS challenge: " ++ e), tr)
      | (none, tr) => (Except.ok (), tr)
    else
      (Except.error ("unsupported challenge type: " ++ c.config.challengeType), [])
  match step with
  | (.error e, tr) => (.error e, tr)
  | (.ok _, tr) =>
    match env.obtainResult with
    | .error e => (.error e, tr ++ [Event.obtain c.domains])
    | .ok certs => (.ok { c with cert := some certs }, tr ++ [Event.obtain c.domains])

/-- `Storage.SaveCertificate`: one `PutObject` of the chain bytes under
the given id. On a transport fault nothing is written. -/
def SaveCertificate (putFault : Option String) (w : World) (id : String)
    (cert : CertResource) : Option String × World × List Event :=
  match putFault with
  | some e => (some e, w, [Event.putBlob id cert.certificate])
  | none => (none, w.putBlob id cert.certificate, [Event.putBlob id cert.certificate])

/-- `Certificate.Save`: persists `c.Cert.Certificate` under
`c.ID.String()`. The `none` branch corresponds to a nil `Cert` pointer
(a crash in Go); it is unreachable from `NewCertificateWithConfig`. -/
def GoCertificate.save (putFault : Option String) (c : GoCertificate) (w : World) :
    Option String × World × List Event :=
  match c.cert with
  | none => (some ("nil certificate resource"), w, [])
  | some r => SaveCertificate putFault w c.id r

/-- The in-memory certificate value `NewCertificateWithConfig` builds
before any collaborator call (`uuid.New()` is passed in as `newId`). -/
def initialCert (newId : String) (account : GoAccount) (domains : List String)
    (config : CertificateConfig) : GoCertificate :=
  { id := newId, accountId := account.id, domains := domains,
    cert := none, config := config }

/-- `NewCertificateWithConfig`: build the record in memory, run
`RequestNewCertificate`, and only on success save the bundle blob. -/
def NewCertificateWithConfig (env : CertEnv) (newId : String)
    (domains : List String) (account : GoAccount) (w : World)
    (config : CertificateConfig) :
    Except String GoCertificate × World × List Event :=
  let cert := initialCert newId account domains config
  match RequestNewCertificate env cert with
  | (.error e, tr) => (.error e, w, tr)
  | (.ok c, tr) =>
    match c.save env.putFault w with
    | (some e, w', tr') => (.error e, w', tr ++ tr')
    | (none, w', tr') => (.ok c, w', tr ++ tr')

/-- `NewCertificate`: the default-config wrapper (challenge type
`"http"`, no DNS provider set). -/
def NewCertificate (env : CertEnv) (newId : String) (domains : List String)
    (account : GoAccount) (w : World) :
    Except String GoCertificate × World × List Event :=
  NewCertificateWithConfig env newId domains account w
    { challengeType := "http", dnsProvider := "" }

/-- `GetSupportedChallengeTypes`. -/
def GetSupportedChallengeTypes : List String := ["http", "dns"]

/-- `ValidateDNSProviderConfig`: only the literal `manual` is accepted.
The error text abridges the source message (the single quotes around
the provider name are omitted); it still carries the provider name. -/
def ValidateDNSProviderConfig (provider : String) : Option String :=
  if provider = "manual" then none
  else
    some ("DNS provider " ++ provider ++
      " not supported yet. Use manual for manual DNS record setup")

/-- Database models passed to `AutoMigrate` by `database.NewConnection`. -/
inductive DbModel where
  | account
  | certificate
  deriving DecidableEq, Repr

/-- `database.NewConnection` runs `db.AutoMigrate(models.Account{})` and
nothing else: only the accounts table is migrated. -/
def newConnectionMigratedModels : List DbModel := [DbModel.account]

end CertManager

namespace CertManager

/-! ### Key-material codec (`crypto/x509` and `encoding/pem`)

The x509 PKCS#8 marshaller/parser and the PEM encoder/decoder are
external library collaborators; they are modelled as an explicit codec
record over an abstract private-key type `K`.  The inverse laws the
libraries provide appear as hypotheses of the theorems that need
them. -/

/-- Codec collaborator: `x509.MarshalPKCS8PrivateKey`,
`x509.ParsePKCS8PrivateKey`, `pem.EncodeToMemory` (block type and block
bytes to encoded bytes) and `pem.Decode` (encoded bytes to block type
and block bytes, `none` when no PEM block is found). -/
structure Codec (K : Type) where
  marshalPKCS8 : K → Except String Bytes
  parsePKCS8 : Bytes → Except String K
  pemEncode : String → Bytes → Bytes
  pemDecode : Bytes → Option (String × Bytes)

/-- `Storage.SavePrivateKey`: marshal to PKCS#8, wrap in a
`PRIVATE KEY` PEM block, and `Save` (one `PutObject`) under the id. -/
def savePrivateKey {K : Type} (c : Codec K) (putFault : Option String)
    (w : World) (id : String) (key : K) :
    Option String × World × List Event :=
  match c.marshalPKCS8 key with
  | .error e => (some e, w, [])
  | .ok keyBytes =>
    let pemBytes := c.pemEncode "PRIVATE KEY" keyBytes
    match putFault with
    | some e => (some e, w, [Event.putBlob id pemBytes])
    | none => (none, w.putBlob id pemBytes, [Event.putBlob id pemBytes])

/-- `Storage.ReadPrivateKey`: `Read` the blob, `pem.Decode` it, and
parse the block bytes as PKCS#8.  The result mirrors the Go pair
(key, error); note that when `pem.Decode` finds no block the source
returns a nil key together with a nil error. -/
def readPrivateKey {K : Type} (c : Codec K) (getFault : Option String)
    (w : World) (id : String) :
    (Option K × Option String) × List Event :=
  match getFault with
  | some e => ((none, some e), [Event.getBlob id])
  | none =>
    match w.readBlob id with
    | none => ((none, some ("The specified key does not exist.")), [Event.getBlob id])
    | some data =>
      match c.pemDecode data with
      | none => ((none, none), [Event.getBlob id])
      | some (_, blockBytes) =>
        match c.parsePKCS8 blockBytes with
        | .error e => ((none, some e), [Event.getBlob id])
        | .ok k => ((some k, none), [Event.getBlob id])

end CertManager

namespace CertManager

/-! ### Account resolution (`common/account`, gorm `accounts` table) -/

/-- Result of `NewAccount`: a Go call either returns a value, returns an
error, or panics (the nil-interface type assertion on the key). -/
inductive Outcome (α : Type) where
  | ok (a : α)
  | err (e : String)
  | panic
  deriving Repr, DecidableEq

/-- Environment for one `NewAccount` call: the govalidator email
predicate, faults of the collaborator calls, the id the database
generates for a created row, and the generated RSA key. -/
structure AcctEnv (K : Type) where
  isEmail : String → Bool
  lookupFault : Option String
  generatedId : String
  keyGen : Except String K
  putFault : Option String
  getFault : Option String
  newClientFault : Option String

/-- The gorm lookup `Where email = ? . First`: finds the first
non-deleted row with the email.  A lookup error leaves the result
struct zeroed, and `NewAccount` inspects only the struct, so a failed
lookup behaves exactly like an absent row. -/
def dbFindByEmail {K : Type} (env : AcctEnv K) (w : World) (email : String) :
    Option AccountRecord × List Event :=
  match env.lookupFault with
  | some _ => (none, [Event.dbFindAccount email])
  | none =>
    (w.db.find? (fun r => r.email == email && !r.deleted), [Event.dbFindAccount email])

/-- The gorm `Create`: the `BeforeCreate` hook validates the email
before any insert is attempted; the insert itself fails on the unique
email index (which also covers soft-deleted rows); otherwise a new row
with a database-generated id is appended. -/
def dbCreateAccount {K : Type} (env : AcctEnv K) (w : World) (email : String) :
    Except String String × World × List Event :=
  if env.isEmail email then
    if w.db.any (fun r => r.email == email) then
      (.error ("duplicate key value violates unique constraint"), w,
        [Event.dbCreateAccount email])
    else
      (.ok env.generatedId,
        { w with db := ⟨env.generatedId, email, false⟩ :: w.db },
        [Event.dbCreateAccount email])
  else
    (.error ("email address is not valid"), w, [])

/-- `Account.CreatePrivateKey`: generate an RSA-2048 key and save it
PEM-encoded under the account id. -/
def CreatePrivateKey {K : Type} (c : Codec K) (env : AcctEnv K) (w : World)
    (id : String) : Except String K × World × List Event :=
  match env.keyGen with
  | .error e => (.error e, w, [])
  | .ok k =>
    match savePrivateKey c env.putFault w id k with
    | (some e, w', tr) => (.error e, w', tr)
    | (none, w', tr) => (.ok k, w', tr)

/-- `account.NewAccount`: look up the email; if a row exists, read and
decode its key and build the client; otherwise create the metadata row,
then generate and save the key, then build the client. -/
def NewAccount {K : Type} (c : Codec K) (env : AcctEnv K) (email : String)
    (w : World) : Outcome GoAccount × World × List Event :=
  match dbFindByEmail env w email with
  | (some r, tr₀) =>
    match readPrivateKey c env.getFault w r.id with
    | ((_, some e), tr₁) => (.err e, w, tr₀ ++ tr₁)
    | ((none, none), tr₁) => (.panic, w, tr₀ ++ tr₁)
    | ((some _, none), tr₁) =>
      match env.newClientFault with
      | some e => (.err e, w, tr₀ ++ tr₁)
      | none => (.ok ⟨r.id, email⟩, w, tr₀ ++ tr₁)
  | (none, tr₀) =>
    match dbCreateAccount env w email with
    | (.error e, w₁, tr₁) => (.err e, w₁, tr₀ ++ tr₁)
    | (.ok newId, w₁, tr₁) =>
      match CreatePrivateKey c env w₁ newId with
      | (.error e, w₂, tr₂) => (.err e, w₂, tr₀ ++ tr₁ ++ tr₂)
      | (.ok _, w₂, tr₂) =>
        match env.newClientFault with
        | some e => (.err e, w₂, tr₀ ++ tr₁ ++ tr₂)
        | none => (.ok ⟨newId, email⟩, w₂, tr₀ ++ tr₁ ++ tr₂)

end CertManager

namespace CertManager

/-! ### Statement helpers and concrete fixtures -/

/-- A challenge-provider configuration call precedes the obtain call in
the trace. -/
def configuredBeforeObtain (tr : List Event) (domains : List String) : Prop :=
  ∃ i j : Nat, i < j ∧
    (tr.get? i = some Event.setHTTP01Provider ∨ tr.get? i = some Event.setDNS01Provider) ∧
    tr.get? j = some (Event.obtain domains)

/-- True when an issuance result is a success. -/
def issuanceOk (r : Except String GoCertificate) : Bool :=
  match r with
  | .ok _ => true
  | .error _ => false

/-- Sample codec over `Nat` keys, used by the concrete witnesses; it
satisfies the x509/pem inverse laws on its whole domain. -/
def natCodec : Codec Nat where
  marshalPKCS8 := fun n => Except.ok [n]
  parsePKCS8 := fun l =>
    match l with
    | [n] => Except.ok n
    | _ => Except.error ("malformed key bytes")
  pemEncode := fun _t b => 0 :: b
  pemDecode := fun l =>
    match l with
    | 0 :: b => some ("PRIVATE KEY", b)
    | _ => none

/-- Account environment in which every collaborator call succeeds and
only the address `a@b.c` passes email validation. -/
def sampleAcctEnv : AcctEnv Nat where
  isEmail := fun e => e == "a@b.c"
  lookupFault := none
  generatedId := "id-1"
  keyGen := Except.ok 5
  putFault := none
  getFault := none
  newClientFault := none

/-- Same environment with a failing key-blob save. -/
def diskFullAcctEnv : AcctEnv Nat :=
  { sampleAcctEnv with putFault := some ("disk full") }

/-- Certificate environment in which every collaborator call succeeds
and the CA returns the bundle bytes `[9, 9]`. -/
def okCertEnv : CertEnv where
  setHTTP01Fault := none
  manualProviderFault := none
  setDNS01Fault := none
  obtainResult := Except.ok ⟨[9, 9]⟩
  putFault := none

/-- Same environment with a failing bundle-blob save. -/
def saveFailCertEnv : CertEnv :=
  { okCertEnv with putFault := some ("boom") }

/-- Same environment with the obtain call failing instead. -/
def obtainFailCertEnv : CertEnv :=
  { okCertEnv with obtainResult := Except.error ("boom") }

/-- Empty durable state. -/
def emptyWorld : World := ⟨[], []⟩

/-- A resolved sample account. -/
def sampleAccount : GoAccount := ⟨"acct-1", "a@b.c"⟩

/-- The certificate value returned by a successful sample issuance with
the DNS challenge. -/
def sampleIssuedCert : GoCertificate :=
  { id := "cert-1", accountId := "acct-1",
    domains := ["example.com", "*.example.com"],
    cert := some ⟨[9, 9]⟩,
    config := { challengeType := "dns", dnsProvider := "manual" } }

end CertManager

namespace CertManager

/-! ### Helper lemmas -/

theorem readBlob_putBlob_self (w : World) (key : String) (data : Bytes) :
    (w.putBlob key data).readBlob key = some data := by
  simp [World.putBlob, World.readBlob, List.find?]

theorem requestNewCertificate_no_write_events (env : CertEnv) (c : GoCertificate) :
    ((RequestNewCertificate env c).2).filter Event.isWrite = [] := by
  by_cases h1 : c.config.challengeType = "http" <;>
  by_cases h2 : c.config.challengeType = "dns" <;>
  cases hf : env.setHTTP01Fault <;>
  cases hm : env.manualProviderFault <;>
  cases hd : env.setDNS01Fault <;>
  cases hob : env.obtainResult <;>
  simp_all [RequestNewCertificate, setupHTTPChallenge, setupDNSChallenge,
    Event.isWrite, Event.isDbWrite, Event.isBlobWrite]

/-! ### Claim theorems -/

/-- Claim C1: on a successful issuance, `NewCertificateWithConfig`
returns a certificate whose bundle blob is saved in the key-material
store under the certificate's own identifier (so the certificate
reference is resolvable), whose `Domains` field equals the input domain
list in exactly the input order, and the challenge provider was
configured before the obtain call. -/
theorem newCertificateWithConfig_success_postconditions
    (env : CertEnv) (newId : String) (domains : List String) (account : GoAccount)
    (w : World) (config : CertificateConfig) (c : GoCertificate)
    (h : (NewCertificateWithConfig env newId domains account w config).1 = Except.ok c) :
    c.domains = domains ∧ c.id = newId ∧
    (∃ r, env.obtainResult = Except.ok r ∧
      (NewCertificateWithConfig env newId domains account w config).2.1.readBlob newId =
        some r.certificate) ∧
    configuredBeforeObtain
      (NewCertificateWithConfig env newId domains account w config).2.2 domains := by
  by_cases h1 : config.challengeType = "http" <;>
  by_cases h2 : config.challengeType = "dns" <;>
  cases hf : env.setHTTP01Fault <;>
  cases hm : env.manualProviderFault <;>
  cases hd : env.setDNS01Fault <;>
  cases hob : env.obtainResult <;>
  cases hput : env.putFault <;>
  simp_all [NewCertificateWithConfig, RequestNewCertificate, GoCertificate.save,
    SaveCertificate, setupHTTPChallenge, setupDNSChallenge, initialCert,
    configuredBeforeObtain, World.readBlob, World.putBlob] <;>
  subst h <;>
  simp <;>
  first
    | exact ⟨0, 1, Nat.zero_lt_one, Or.inl rfl, rfl⟩
    | exact ⟨0, 1, Nat.zero_lt_one, Or.inr rfl, rfl⟩

/-- Witness for C1: a concrete successful DNS-challenge issuance of
`["example.com", "*.example.com"]`. -/
theorem newCertificateWithConfig_success_postconditions_witness :
    sampleIssuedCert.domains = ["example.com", "*.example.com"] ∧
    sampleIssuedCert.id = "cert-1" ∧
    (∃ r, okCertEnv.obtainResult = Except.ok r ∧
      (NewCertificateWithConfig okCertEnv "cert-1" ["example.com", "*.example.com"]
        sampleAccount emptyWorld
        { challengeType := "dns", dnsProvider := "manual" }).2.1.readBlob "cert-1" =
          some r.certificate) ∧
    configuredBeforeObtain
      (NewCertificateWithConfig okCertEnv "cert-1" ["example.com", "*.example.com"]
        sampleAccount emptyWorld
        { challengeType := "dns", dnsProvider := "manual" }).2.2
      ["example.com", "*.example.com"] :=
  newCertificateWithConfig_success_postconditions okCertEnv "cert-1"
    ["example.com", "*.example.com"] sampleAccount emptyWorld
    { challengeType := "dns", dnsProvider := "manual" } sampleIssuedCert (by rfl)

/-- Claim C2: whenever challenge setup fails or the obtain call returns
an error, the issuance returns that error and performs zero writes: the
durable state is unchanged and the trace holds no store-write call. -/
theorem newCertificateWithConfig_preobtain_failure_no_writes
    (env : CertEnv) (newId : String) (domains : List String) (account : GoAccount)
    (w : World) (config : CertificateConfig) (e : String)
    (h : (RequestNewCertificate env (initialCert newId account domains config)).1 =
      Except.error e) :
    (NewCertificateWithConfig env newId domains account w config).1 = Except.error e ∧
    (NewCertificateWithConfig env newId domains account w config).2.1 = w ∧
    ((NewCertificateWithConfig env newId domains account w config).2.2).filter
      Event.isWrite = [] := by
  have hnw := requestNewCertificate_no_write_events env
    (initialCert newId account domains config)
  rcases hreq : RequestNewCertificate env (initialCert newId account domains config)
    with ⟨res, tr⟩
  rw [hreq] at h hnw
  cases res with
  | error e' =>
    cases h
    simp [NewCertificateWithConfig, hreq, hnw]
  | ok c => cases h

/-- Witness for C2: a concrete run in which the obtain call fails. -/
theorem newCertificateWithConfig_preobtain_failure_no_writes_witness :
    (NewCertificateWithConfig obtainFailCertEnv "cert-1" ["example.com"]
      sampleAccount emptyWorld { challengeType := "http", dnsProvider := "" }).1 =
        Except.error ("boom") ∧
    (NewCertificateWithConfig obtainFailCertEnv "cert-1" ["example.com"]
      sampleAccount emptyWorld { challengeType := "http", dnsProvider := "" }).2.1 =
        emptyWorld ∧
    ((NewCertificateWithConfig obtainFailCertEnv "cert-1" ["example.com"]
      sampleAccount emptyWorld { challengeType := "http", dnsProvider := "" }).2.2).filter
        Event.isWrite = [] :=
  newCertificateWithConfig_preobtain_failure_no_writes obtainFailCertEnv "cert-1"
    ["example.com"] sampleAccount emptyWorld
    { challengeType := "http", dnsProvider := "" } "boom" (by rfl)

end CertManager

namespace CertManager

theorem requestNewCertificate_ok_cert_some (env : CertEnv) (c0 c : GoCertificate)
    (h : (RequestNewCertificate env c0).1 = Except.ok c) :
    ∃ r, env.obtainResult = Except.ok r ∧ c.cert = some r := by
  by_cases h1 : c0.config.challengeType = "http" <;>
  by_cases h2 : c0.config.challengeType = "dns" <;>
  cases hf : env.setHTTP01Fault <;>
  cases hm : env.manualProviderFault <;>
  cases hd : env.setDNS01Fault <;>
  cases hob : env.obtainResult <;>
  simp_all [RequestNewCertificate, setupHTTPChallenge, setupDNSChallenge] <;>
  (subst h; simp)

/-- Counterexample for C3: a failed bundle save after a successful
obtain returns the raw store error `boom`, which is the very same error
value an obtain failure with message `boom` returns: no
`PostIssuancePersistenceFailure` classification distinguishes the two
paths. -/
theorem postIssuance_error_indistinguishable_counterexample :
    (NewCertificateWithConfig saveFailCertEnv "cert-1" ["example.com"] sampleAccount
      emptyWorld { challengeType := "http", dnsProvider := "" }).1 =
        Except.error ("boom") ∧
    (NewCertificateWithConfig obtainFailCertEnv "cert-1" ["example.com"] sampleAccount
      emptyWorld { challengeType := "http", dnsProvider := "" }).1 =
        Except.error ("boom") :=
  ⟨rfl, rfl⟩

/-- Claim C3 (amended): if the obtain call succeeds but the bundle save
fails, the issuance returns the store error verbatim (and persists
nothing); no distinct error category marks the post-issuance
persistence failure. -/
theorem newCertificateWithConfig_save_failure_raw_error
    (env : CertEnv) (newId : String) (domains : List String) (account : GoAccount)
    (w : World) (config : CertificateConfig) (c : GoCertificate) (e : String)
    (hok : (RequestNewCertificate env (initialCert newId account domains config)).1 =
      Except.ok c)
    (hput : env.putFault = some e) :
    (NewCertificateWithConfig env newId domains account w config).1 = Except.error e ∧
    (NewCertificateWithConfig env newId domains account w config).2.1 = w := by
  obtain ⟨r, _, hcert⟩ := requestNewCertificate_ok_cert_some env _ c hok
  rcases hreq : RequestNewCertificate env (initialCert newId account domains config)
    with ⟨res, tr⟩
  rw [hreq] at hok
  cases res with
  | error e' => cases hok
  | ok c' =>
    cases hok
    simp [NewCertificateWithConfig, hreq, GoCertificate.save, hcert, SaveCertificate, hput]

/-- Witness for C3 (amended): concrete save-failure run. -/
theorem newCertificateWithConfig_save_failure_raw_error_witness :
    (NewCertificateWithConfig saveFailCertEnv "cert-2" ["example.com"] sampleAccount
      emptyWorld { challengeType := "http", dnsProvider := "" }).1 =
        Except.error ("boom") ∧
    (NewCertificateWithConfig saveFailCertEnv "cert-2" ["example.com"] sampleAccount
      emptyWorld { challengeType := "http", dnsProvider := "" }).2.1 = emptyWorld :=
  newCertificateWithConfig_save_failure_raw_error saveFailCertEnv "cert-2"
    ["example.com"] sampleAccount emptyWorld
    { challengeType := "http", dnsProvider := "" }
    { id := "cert-2", accountId := "acct-1", domains := ["example.com"],
      cert := some ⟨[9, 9]⟩,
      config := { challengeType := "http", dnsProvider := "" } }
    "boom" (by rfl) (by rfl)

/-- Counterexample for C5: with the DNS challenge and provider
`route53`, both the configuration step and the whole issuance succeed;
no `UnsupportedDNSProvider` failure occurs. -/
theorem dns_challenge_route53_succeeds_counterexample :
    (NewCertificateWithConfig okCertEnv "cert-1" ["example.com", "*.example.com"]
      sampleAccount emptyWorld
      { challengeType := "dns", dnsProvider := "route53" }).1 =
    Except.ok
      { id := "cert-1", accountId := "acct-1",
        domains := ["example.com", "*.example.com"],
        cert := some ⟨[9, 9]⟩,
        config := { challengeType := "dns", dnsProvider := "route53" } } :=
  rfl

/-- Claim C5 (amended): `ValidateDNSProviderConfig` accepts exactly the
literal `manual` and rejects any other value with an error carrying the
provider name, and an unknown challenge type fails the issuance with an
unsupported-challenge-type error; but the DNS challenge setup never
consults the provider value, so configuration and issuance behave
identically for any provider string. -/
theorem dns_provider_validation_unused
    (p : String) (hp : ¬ p = "manual") (ct : String)
    (hcth : ¬ ct = "http") (hctd : ¬ ct = "dns")
    (env : CertEnv) (newId : String) (domains : List String) (account : GoAccount)
    (w : World) (p₁ p₂ : String) :
    ValidateDNSProviderConfig "manual" = none ∧
    ValidateDNSProviderConfig p =
      some ("DNS provider " ++ p ++
        " not supported yet. Use manual for manual DNS record setup") ∧
    (RequestNewCertificate env (initialCert newId account domains ⟨ct, p⟩)).1 =
      Except.error ("unsupported challenge type: " ++ ct) ∧
    (NewCertificateWithConfig env newId domains account w ⟨"dns", p₁⟩).2 =
      (NewCertificateWithConfig env newId domains account w ⟨"dns", p₂⟩).2 ∧
    issuanceOk (NewCertificateWithConfig env newId domains account w ⟨"dns", p₁⟩).1 =
      issuanceOk (NewCertificateWithConfig env newId domains account w ⟨"dns", p₂⟩).1 := by
  refine ⟨by simp [ValidateDNSProviderConfig],
    by simp [ValidateDNSProviderConfig, hp], ?_, ?_, ?_⟩ <;>
  cases hm : env.manualProviderFault <;>
  cases hd : env.setDNS01Fault <;>
  cases hob : env.obtainResult <;>
  cases hput : env.putFault <;>
  simp_all [NewCertificateWithConfig, RequestNewCertificate, GoCertificate.save,
    SaveCertificate, setupHTTPChallenge, setupDNSChallenge, initialCert,
    issuanceOk, hcth, hctd]

/-- Witness for C5 (amended): provider `route53`, challenge type
`smtp`. -/
theorem dns_provider_validation_unused_witness :
    ValidateDNSProviderConfig "manual" = none ∧
    ValidateDNSProviderConfig "route53" =
      some ("DNS provider route53 not supported yet. " ++
        "Use manual for manual DNS record setup") ∧
    (RequestNewCertificate okCertEnv
      (initialCert "cert-1" sampleAccount ["example.com"] ⟨"smtp", "route53"⟩)).1 =
      Except.error ("unsupported challenge type: smtp") ∧
    (NewCertificateWithConfig okCertEnv "cert-1" ["example.com"] sampleAccount
      emptyWorld ⟨"dns", "manual"⟩).2 =
      (NewCertificateWithConfig okCertEnv "cert-1" ["example.com"] sampleAccount
        emptyWorld ⟨"dns", "route53"⟩).2 ∧
    issuanceOk (NewCertificateWithConfig okCertEnv "cert-1" ["example.com"]
      sampleAccount emptyWorld ⟨"dns", "manual"⟩).1 =
      issuanceOk (NewCertificateWithConfig okCertEnv "cert-1" ["example.com"]
        sampleAccount emptyWorld ⟨"dns", "route53"⟩).1 := by
  have h := dns_provider_validation_unused "route53" (by decide) "smtp"
    (by decide) (by decide) okCertEnv "cert-1" ["example.com"] sampleAccount
    emptyWorld "manual" "route53"
  exact ⟨h.1, by exact h.2.1, h.2.2.1, h.2.2.2.1, h.2.2.2.2⟩

end CertManager

namespace CertManager

/-! ### Account-side helper lemmas -/

theorem dbFindByEmail_snd {K : Type} (env : AcctEnv K) (w : World) (email : String) :
    (dbFindByEmail env w email).2 = [Event.dbFindAccount email] := by
  unfold dbFindByEmail
  cases env.lookupFault <;> rfl

theorem readPrivateKey_trace {K : Type} (c : Codec K) (g : Option String)
    (w : World) (id : String) :
    (readPrivateKey c g w id).2 = [Event.getBlob id] := by
  unfold readPrivateKey
  (repeat' split) <;> rfl

theorem createPrivateKey_cases {K : Type} (c : Codec K) (env : AcctEnv K)
    (w : World) (id : String) :
    ((CreatePrivateKey c env w id).2.2 = [] ∧ (CreatePrivateKey c env w id).2.1 = w) ∨
    (∃ d, (CreatePrivateKey c env w id).2.2 = [Event.putBlob id d]) := by
  cases hkg : env.keyGen with
  | error e => left; simp [CreatePrivateKey, hkg]
  | ok k =>
    cases hmar : c.marshalPKCS8 k with
    | error e => left; simp [CreatePrivateKey, savePrivateKey, hkg, hmar]
    | ok b =>
      cases hpf : env.putFault with
      | some e =>
        right
        exact ⟨c.pemEncode "PRIVATE KEY" b,
          by simp [CreatePrivateKey, savePrivateKey, hkg, hmar, hpf]⟩
      | none =>
        right
        exact ⟨c.pemEncode "PRIVATE KEY" b,
          by simp [CreatePrivateKey, savePrivateKey, hkg, hmar, hpf]⟩

theorem newAccount_found_branch {K : Type} (c : Codec K) (env : AcctEnv K)
    (email : String) (w : World) (r : AccountRecord)
    (hlf : env.lookupFault = none)
    (hr : w.db.find? (fun a => a.email == email && !a.deleted) = some r) :
    (NewAccount c env email w).2.1 = w ∧
    (NewAccount c env email w).2.2 = [Event.dbFindAccount email, Event.getBlob r.id] ∧
    ∀ a, (NewAccount c env email w).1 = Outcome.ok a → a = ⟨r.id, email⟩ := by
  have htr := readPrivateKey_trace c env.getFault w r.id
  unfold NewAccount
  simp only [dbFindByEmail, hlf, hr]
  rcases hrp : readPrivateKey c env.getFault w r.id with ⟨⟨k?, err?⟩, tr⟩
  rw [hrp] at htr
  subst htr
  cases err? <;> cases k? <;> cases hcl : env.newClientFault <;> simp_all

theorem dbCreateAccount_ok {K : Type} (env : AcctEnv K) (w : World) (email : String)
    (i : String) (h : (dbCreateAccount env w email).1 = Except.ok i) :
    i = env.generatedId ∧
    (dbCreateAccount env w email).2.2 = [Event.dbCreateAccount email] ∧
    (dbCreateAccount env w email).2.1 =
      { w with db := ⟨env.generatedId, email, false⟩ :: w.db } := by
  cases hv : env.isEmail email <;>
  cases hdup : w.db.any (fun r => r.email == email) <;>
  simp_all [dbCreateAccount, -List.any_eq_true, -List.any_eq_false]

theorem dbCreateAccount_error_frame {K : Type} (env : AcctEnv K) (w : World)
    (email : String) (e : String)
    (h : (dbCreateAccount env w email).1 = Except.error e) :
    (dbCreateAccount env w email).2.1 = w ∧
    ((dbCreateAccount env w email).2.2 = [] ∨
      (dbCreateAccount env w email).2.2 = [Event.dbCreateAccount email]) := by
  cases hv : env.isEmail email <;>
  cases hdup : w.db.any (fun r => r.email == email) <;>
  simp_all [dbCreateAccount, -List.any_eq_true, -List.any_eq_false]

theorem newAccount_create_path_trace {K : Type} (c : Codec K) (env : AcctEnv K)
    (email : String) (w : World)
    (hfind : (dbFindByEmail env w email).1 = none) :
    (NewAccount c env email w).2.2 = [Event.dbFindAccount email] ∨
    (NewAccount c env email w).2.2 =
      [Event.dbFindAccount email, Event.dbCreateAccount email] ∨
    ∃ d, (NewAccount c env email w).2.2 =
      [Event.dbFindAccount email, Event.dbCreateAccount email,
        Event.putBlob env.generatedId d] := by
  have hsnd := dbFindByEmail_snd env w email
  unfold NewAccount
  rcases hfe : dbFindByEmail env w email with ⟨fo, tr0⟩
  rw [hfe] at hfind hsnd
  obtain rfl : fo = none := hfind
  obtain rfl : tr0 = [Event.dbFindAccount email] := hsnd
  dsimp only
  rcases hca : dbCreateAccount env w email with ⟨res1, w1, tr1⟩
  cases res1 with
  | error e =>
    have hfr := dbCreateAccount_error_frame env w email e (by rw [hca])
    rw [hca] at hfr
    rcases hfr.2 with h1 | h1 <;>
      obtain rfl : tr1 = _ := h1 <;> simp
  | ok i =>
    have hok := dbCreateAccount_ok env w email i (by rw [hca])
    rw [hca] at hok
    obtain ⟨rfl, htr1, hw1⟩ := hok
    obtain rfl : tr1 = [Event.dbCreateAccount email] := htr1
    dsimp only
    have hcc := createPrivateKey_cases c env w1 env.generatedId
    rcases hcp : CreatePrivateKey c env w1 env.generatedId with ⟨res2, w2, tr2⟩
    rw [hcp] at hcc
    cases res2 with
    | error e =>
      rcases hcc with ⟨h2, _⟩ | ⟨d, h2⟩ <;> obtain rfl : tr2 = _ := h2 <;> simp
    | ok kk =>
      rcases hcc with ⟨h2, _⟩ | ⟨d, h2⟩ <;> obtain rfl : tr2 = _ := h2 <;>
        cases hcl : env.newClientFault <;> simp

end CertManager

namespace CertManager

/-- Counterexample for C4: with a failing key-blob save, `NewAccount`
on a fresh email leaves a persisted account row whose key blob does not
exist, so the key blob is not written before the metadata row. -/
theorem newAccount_metadata_without_key_counterexample :
    (NewAccount natCodec diskFullAcctEnv "a@b.c" emptyWorld).1 =
      Outcome.err ("disk full") ∧
    (NewAccount natCodec diskFullAcctEnv "a@b.c" emptyWorld).2.1.db =
      [⟨"id-1", "a@b.c", false⟩] ∧
    (NewAccount natCodec diskFullAcctEnv "a@b.c" emptyWorld).2.1.readBlob "id-1" =
      none :=
  ⟨rfl, rfl, rfl⟩

/-- Claim C4 (amended): during creation of a new account, `NewAccount`
creates the account metadata row first and saves the key blob second:
whenever a key-blob write occurs in the trace, the trace is exactly
lookup, then metadata create, then the blob write.  A crash or fault
between the two leaves a metadata row without a key blob, detected as a
key-read failure on the next load. -/
theorem newAccount_creates_metadata_before_key_blob {K : Type} (c : Codec K)
    (env : AcctEnv K) (email : String) (w : World) (k : String) (d : Bytes)
    (hfind : (dbFindByEmail env w email).1 = none)
    (hput : Event.putBlob k d ∈ (NewAccount c env email w).2.2) :
    (NewAccount c env email w).2.2 =
      [Event.dbFindAccount email, Event.dbCreateAccount email, Event.putBlob k d] := by
  rcases newAccount_create_path_trace c env email w hfind with h | h | ⟨d', h⟩ <;>
    rw [h] at hput ⊢ <;> simp at hput
  obtain ⟨hk, hd⟩ := hput
  rw [hk, hd]

/-- Witness for C4 (amended): a concrete fresh-email creation. -/
theorem newAccount_creates_metadata_before_key_blob_witness :
    (NewAccount natCodec sampleAcctEnv "a@b.c" emptyWorld).2.2 =
      [Event.dbFindAccount "a@b.c", Event.dbCreateAccount "a@b.c",
        Event.putBlob "id-1" [0, 5]] :=
  newAccount_creates_metadata_before_key_blob natCodec sampleAcctEnv "a@b.c"
    emptyWorld "id-1" [0, 5] (by rfl)
    (by simp [NewAccount, dbFindByEmail, dbCreateAccount, CreatePrivateKey,
      savePrivateKey, sampleAcctEnv, natCodec, emptyWorld, World.putBlob])

/-- Claim C6: for an email whose account row exists, `NewAccount`
performs zero writes to either store (state unchanged, trace holds only
the lookup and the key-blob read, keyed by the stored row's id), and
any successfully returned account carries the existing row's id (hence
the same key reference, keys being stored under the account id); a
second call returns the same id again. -/
theorem newAccount_existing_email_no_writes {K : Type} (c : Codec K)
    (env env' : AcctEnv K) (email : String) (w : World) (r : AccountRecord)
    (hlf : env.lookupFault = none) (hlf' : env'.lookupFault = none)
    (hr : w.db.find? (fun a => a.email == email && !a.deleted) = some r) :
    (NewAccount c env email w).2.1 = w ∧
    ((NewAccount c env email w).2.2).filter Event.isWrite = [] ∧
    (NewAccount c env email w).2.2 = [Event.dbFindAccount email, Event.getBlob r.id] ∧
    (∀ a, (NewAccount c env email w).1 = Outcome.ok a → a.id = r.id) ∧
    (∀ a a', (NewAccount c env email w).1 = Outcome.ok a →
      (NewAccount c env' email ((NewAccount c env email w).2.1)).1 = Outcome.ok a' →
      a'.id = a.id) := by
  obtain ⟨hw, htr, hok⟩ := newAccount_found_branch c env email w r hlf hr
  obtain ⟨hw', htr', hok'⟩ := newAccount_found_branch c env' email w r hlf' hr
  refine ⟨hw, by rw [htr]; rfl, htr, ?_, ?_⟩
  · intro a ha
    rw [hok a ha]
  · intro a a' ha ha'
    rw [hw] at ha'
    rw [hok a ha, hok' a' ha']

/-- Witness for C6: a concrete existing account with its key blob in
the store. -/
theorem newAccount_existing_email_no_writes_witness :
    (NewAccount natCodec sampleAcctEnv "a@b.c"
      ⟨[⟨"id-0", "a@b.c", false⟩], [("id-0", [0, 5])]⟩).2.1 =
      ⟨[⟨"id-0", "a@b.c", false⟩], [("id-0", [0, 5])]⟩ ∧
    ((NewAccount natCodec sampleAcctEnv "a@b.c"
      ⟨[⟨"id-0", "a@b.c", false⟩], [("id-0", [0, 5])]⟩).2.2).filter Event.isWrite = [] ∧
    (NewAccount natCodec sampleAcctEnv "a@b.c"
      ⟨[⟨"id-0", "a@b.c", false⟩], [("id-0", [0, 5])]⟩).2.2 =
      [Event.dbFindAccount "a@b.c", Event.getBlob "id-0"] ∧
    (∀ a, (NewAccount natCodec sampleAcctEnv "a@b.c"
      ⟨[⟨"id-0", "a@b.c", false⟩], [("id-0", [0, 5])]⟩).1 = Outcome.ok a →
        a.id = "id-0") ∧
    (∀ a a', (NewAccount natCodec sampleAcctEnv "a@b.c"
      ⟨[⟨"id-0", "a@b.c", false⟩], [("id-0", [0, 5])]⟩).1 = Outcome.ok a →
      (NewAccount natCodec sampleAcctEnv "a@b.c"
        ((NewAccount natCodec sampleAcctEnv "a@b.c"
          ⟨[⟨"id-0", "a@b.c", false⟩], [("id-0", [0, 5])]⟩).2.1)).1 = Outcome.ok a' →
      a'.id = a.id) :=
  newAccount_existing_email_no_writes natCodec sampleAcctEnv sampleAcctEnv "a@b.c"
    ⟨[⟨"id-0", "a@b.c", false⟩], [("id-0", [0, 5])]⟩ ⟨"id-0", "a@b.c", false⟩
    rfl rfl (by rfl)

/-- Counterexample for C7: a soft-deleted row for the email is invisible
to the lookup but still trips the unique email index, so the create
fails with the duplicate-key error, and `NewAccount` propagates that
error to the caller instead of retrying the lookup and returning the
existing account. -/
theorem newAccount_duplicate_create_propagates_counterexample :
    (NewAccount natCodec sampleAcctEnv "a@b.c"
      ⟨[⟨"id-0", "a@b.c", true⟩], []⟩).1 =
      Outcome.err ("duplicate key value violates unique constraint") :=
  rfl

/-- Claim C7 (amended): when the metadata create fails because the
unique-email constraint fires, `NewAccount` returns the duplicate-key
error unchanged (leaving the state as it was); no fallback lookup is
performed. -/
theorem newAccount_duplicate_create_error_propagates {K : Type} (c : Codec K)
    (env : AcctEnv K) (email : String) (w : World)
    (hfind : (dbFindByEmail env w email).1 = none)
    (hvalid : env.isEmail email = true)
    (hdup : w.db.any (fun r => r.email == email) = true) :
    (NewAccount c env email w).1 =
      Outcome.err ("duplicate key value violates unique constraint") ∧
    (NewAccount c env email w).2.1 = w := by
  unfold NewAccount
  rcases hfe : dbFindByEmail env w email with ⟨fo, tr0⟩
  rw [hfe] at hfind
  obtain rfl : fo = none := hfind
  dsimp only
  simp [dbCreateAccount, hvalid, hdup]

/-- Witness for C7 (amended): the soft-deleted-row scenario. -/
theorem newAccount_duplicate_create_error_propagates_witness :
    (NewAccount natCodec sampleAcctEnv "a@b.c" ⟨[⟨"id-0", "a@b.c", true⟩], []⟩).1 =
      Outcome.err ("duplicate key value violates unique constraint") ∧
    (NewAccount natCodec sampleAcctEnv "a@b.c" ⟨[⟨"id-0", "a@b.c", true⟩], []⟩).2.1 =
      ⟨[⟨"id-0", "a@b.c", true⟩], []⟩ :=
  newAccount_duplicate_create_error_propagates natCodec sampleAcctEnv "a@b.c"
    ⟨[⟨"id-0", "a@b.c", true⟩], []⟩ (by rfl) (by rfl) (by rfl)

/-- Claim C8: for a syntactically invalid email with no existing
account row, `NewAccount` fails with the email-validation error raised
by the create hook and performs no store writes: the state is unchanged
and the trace holds no write call. -/
theorem newAccount_invalid_email_no_writes {K : Type} (c : Codec K)
    (env : AcctEnv K) (email : String) (w : World)
    (hinvalid : env.isEmail email = false)
    (hnone : (dbFindByEmail env w email).1 = none) :
    (NewAccount c env email w).1 = Outcome.err ("email address is not valid") ∧
    (NewAccount c env email w).2.1 = w ∧
    ((NewAccount c env email w).2.2).filter Event.isWrite = [] := by
  unfold NewAccount
  rcases hfe : dbFindByEmail env w email with ⟨fo, tr0⟩
  have hsnd := dbFindByEmail_snd env w email
  rw [hfe] at hnone hsnd
  obtain rfl : fo = none := hnone
  obtain rfl : tr0 = [Event.dbFindAccount email] := hsnd
  dsimp only
  simp [dbCreateAccount, hinvalid, Event.isWrite, Event.isDbWrite, Event.isBlobWrite]

/-- Witness for C8: the literal `not-an-email`. -/
theorem newAccount_invalid_email_no_writes_witness :
    (NewAccount natCodec sampleAcctEnv "not-an-email" emptyWorld).1 =
      Outcome.err ("email address is not valid") ∧
    (NewAccount natCodec sampleAcctEnv "not-an-email" emptyWorld).2.1 = emptyWorld ∧
    ((NewAccount natCodec sampleAcctEnv "not-an-email" emptyWorld).2.2).filter
      Event.isWrite = [] :=
  newAccount_invalid_email_no_writes natCodec sampleAcctEnv "not-an-email"
    emptyWorld (by rfl) (by rfl)

/-- Claim C9: `SavePrivateKey` followed by `ReadPrivateKey` under the
same identifier is a round trip.  Under the x509/pem library laws for
the key (parse inverts marshal, decode inverts encode), the save
succeeds, the stored blob is exactly the PEM encoding of the marshalled
key, and the read returns the original key, so re-encoding the
read-back key reproduces the stored PEM bytes byte for byte. -/
theorem savePrivateKey_readPrivateKey_roundtrip {K : Type} (c : Codec K)
    (k : K) (b : Bytes) (w : World) (id : String)
    (hmar : c.marshalPKCS8 k = Except.ok b)
    (hpem : c.pemDecode (c.pemEncode "PRIVATE KEY" b) = some ("PRIVATE KEY", b))
    (hparse : c.parsePKCS8 b = Except.ok k) :
    (savePrivateKey c none w id k).1 = none ∧
    (savePrivateKey c none w id k).2.1.readBlob id =
      some (c.pemEncode "PRIVATE KEY" b) ∧
    (readPrivateKey c none (savePrivateKey c none w id k).2.1 id).1 =
      (some k, none) := by
  have hsave : savePrivateKey c none w id k =
      (none, w.putBlob id (c.pemEncode "PRIVATE KEY" b),
        [Event.putBlob id (c.pemEncode "PRIVATE KEY" b)]) := by
    simp [savePrivateKey, hmar]
  rw [hsave]
  refine ⟨rfl, readBlob_putBlob_self w id _, ?_⟩
  simp [readPrivateKey, readBlob_putBlob_self, hpem, hparse]

/-- Witness for C9: the sample codec at key `5`. -/
theorem savePrivateKey_readPrivateKey_roundtrip_witness :
    (savePrivateKey natCodec none emptyWorld "key-1" 5).1 = none ∧
    (savePrivateKey natCodec none emptyWorld "key-1" 5).2.1.readBlob "key-1" =
      some (natCodec.pemEncode "PRIVATE KEY" [5]) ∧
    (readPrivateKey natCodec none
      (savePrivateKey natCodec none emptyWorld "key-1" 5).2.1 "key-1").1 =
      (some 5, none) :=
  savePrivateKey_readPrivateKey_roundtrip natCodec 5 [5] emptyWorld "key-1"
    (by rfl) (by rfl) (by rfl)

/-- Claim C10: no certificate metadata is ever written to the
relational store by an issuance, succeeding or failing: the relational
rows are unchanged, the trace holds no relational write, the connection
migration covers exactly the account model (not the certificate model),
the only durable write of a successful issuance is the single bundle
blob under the new certificate id, and the default wrapper simply fixes
the http challenge configuration. -/
theorem newCertificate_no_relational_writes
    (env : CertEnv) (newId : String) (domains : List String) (account : GoAccount)
    (w : World) (config : CertificateConfig) :
    (NewCertificateWithConfig env newId domains account w config).2.1.db = w.db ∧
    ((NewCertificateWithConfig env newId domains account w config).2.2).filter
      Event.isDbWrite = [] ∧
    newConnectionMigratedModels = [DbModel.account] ∧
    DbModel.certificate ∉ newConnectionMigratedModels ∧
    (∀ c, (NewCertificateWithConfig env newId domains account w config).1 =
        Except.ok c →
      ∃ r, env.obtainResult = Except.ok r ∧
        (NewCertificateWithConfig env newId domains account w config).2.1.blobs =
          (newId, r.certificate) :: w.blobs) ∧
    NewCertificate env newId domains account w =
      NewCertificateWithConfig env newId domains account w ⟨"http", ""⟩ := by
  refine ⟨?_, ?_, rfl, by decide, ?_, rfl⟩ <;>
  by_cases h1 : config.challengeType = "http" <;>
  by_cases h2 : config.challengeType = "dns" <;>
  cases hf : env.setHTTP01Fault <;>
  cases hm : env.manualProviderFault <;>
  cases hd : env.setDNS01Fault <;>
  cases hob : env.obtainResult <;>
  cases hput : env.putFault <;>
  simp_all [NewCertificateWithConfig, RequestNewCertificate, GoCertificate.save,
    SaveCertificate, setupHTTPChallenge, setupDNSChallenge, initialCert,
    World.putBlob, Event.isDbWrite]

/-- Witness for C10: a concrete successful default issuance. -/
theorem newCertificate_no_relational_writes_witness :
    (NewCertificateWithConfig okCertEnv "cert-3" ["example.com"] sampleAccount
      emptyWorld ⟨"http", ""⟩).2.1.db = emptyWorld.db ∧
    ((NewCertificateWithConfig okCertEnv "cert-3" ["example.com"] sampleAccount
      emptyWorld ⟨"http", ""⟩).2.2).filter Event.isDbWrite = [] ∧
    newConnectionMigratedModels = [DbModel.account] ∧
    DbModel.certificate ∉ newConnectionMigratedModels ∧
    (∀ c, (NewCertificateWithConfig okCertEnv "cert-3" ["example.com"] sampleAccount
        emptyWorld ⟨"http", ""⟩).1 = Except.ok c →
      ∃ r, okCertEnv.obtainResult = Except.ok r ∧
        (NewCertificateWithConfig okCertEnv "cert-3" ["example.com"] sampleAccount
          emptyWorld ⟨"http", ""⟩).2.1.blobs =
          ("cert-3", r.certificate) :: emptyWorld.blobs) ∧
    NewCertificate okCertEnv "cert-3" ["example.com"] sampleAccount emptyWorld =
      NewCertificateWithConfig okCertEnv "cert-3" ["example.com"] sampleAccount
        emptyWorld ⟨"http", ""⟩ :=
  newCertificate_no_relational_writes okCertEnv "cert-3" ["example.com"]
    sampleAccount emptyWorld ⟨"http", ""⟩

end CertManager
